import Mathlib

/-!
Verification of the interview relay backend (`Backend/main.py`,
`Backend/database.py`, `Backend/config_routes.py`) against its
natural-language specification.

The Python source is shallowly embedded: each relevant function is
translated into an executable Lean definition over explicit state.
Python integers are modelled by `Int` (or `Nat` where the source value
is a count), Python `None`/falsy-string checks by `Option`/emptiness
tests, MongoDB collections by association lists, and the effectful
control flow of the websocket handler by a function from the outcome of
each effectful step to the observable actions taken.
-/

namespace InterviewBot

/-! ### ConnectionManager (main.py lines 204-258)

`active_connections`/`total_connections` are Python ints; `remove_connection`
clamps with `max(0, active - 1)` so we keep `Int` and the explicit clamp.
`connection_history` is a `deque(maxlen=100)`: appending to a full deque
evicts the oldest entry.  Timestamps are I/O and are not modelled. -/

/-- One `connection_history` entry: the `action` field is `true` for
`'connected'` and `false` for `'disconnected'`; `active` (and for connects
`total`) are the counter values recorded at append time. -/
structure HistEntry where
  connected : Bool
  active : Int
  total : Option Int
deriving Repr, DecidableEq

/-- `deque(maxlen=100).append`: chronological list, oldest first, dropping
the head once the length would exceed 100. -/
def dequePush (h : List HistEntry) (e : HistEntry) : List HistEntry :=
  let h := h ++ [e]
  if h.length > 100 then h.drop (h.length - 100) else h

/-- The mutable state of `ConnectionManager` (token cache handled
separately below, `start_time` is I/O). -/
structure ConnMgr where
  active_connections : Int
  total_connections : Int
  connection_history : List HistEntry
deriving Repr, DecidableEq

/-- `ConnectionManager.__init__`. -/
def ConnMgr.init : ConnMgr :=
  { active_connections := 0, total_connections := 0, connection_history := [] }

/-- `can_accept_connection`: `self.active_connections < MAX_CONCURRENT_CONNECTIONS`.
The maximum is environment-configured (default 1000), so it is a parameter. -/
def can_accept_connection (maxConn : Nat) (m : ConnMgr) : Bool :=
  m.active_connections < (maxConn : Int)

/-- `add_connection`: increment both counters, append a history entry. -/
def add_connection (m : ConnMgr) : ConnMgr :=
  { active_connections := m.active_connections + 1
    total_connections := m.total_connections + 1
    connection_history := dequePush m.connection_history
      { connected := true, active := m.active_connections + 1,
        total := some (m.total_connections + 1) } }

/-- `remove_connection`: `active = max(0, active - 1)`, append a history entry. -/
def remove_connection (m : ConnMgr) : ConnMgr :=
  { active_connections := max 0 (m.active_connections - 1)
    total_connections := m.total_connections
    connection_history := dequePush m.connection_history
      { connected := false, active := max 0 (m.active_connections - 1),
        total := none } }

/-- The admission step the websocket handler performs, taken as one atomic
critical section as the spec stipulates: `can_accept_connection` followed,
on success, by `add_connection`. -/
def tryAcquire (maxConn : Nat) (m : ConnMgr) : Bool × ConnMgr :=
  if can_accept_connection maxConn m then (true, add_connection m) else (false, m)

/-- An interleaving of concurrent callers, each operation atomic, is a
sequence of acquire/release events. -/
inductive AdmOp where
  | acquire
  | release
deriving Repr, DecidableEq

/-- Run one admission event. -/
def admStep (maxConn : Nat) (m : ConnMgr) : AdmOp → ConnMgr
  | .acquire => (tryAcquire maxConn m).2
  | .release => remove_connection m

/-- Run a whole interleaving from a given state. -/
def admRun (maxConn : Nat) (m : ConnMgr) (ops : List AdmOp) : ConnMgr :=
  ops.foldl (admStep maxConn) m

lemma admStep_bounds (maxConn : Nat) (m : ConnMgr)
    (hm : 0 ≤ m.active_connections ∧ m.active_connections ≤ (maxConn : Int))
    (op : AdmOp) :
    0 ≤ (admStep maxConn m op).active_connections ∧
      (admStep maxConn m op).active_connections ≤ (maxConn : Int) := by
  cases op with
  | acquire =>
    rw [show admStep maxConn m .acquire = (tryAcquire maxConn m).2 from rfl, tryAcquire]
    by_cases h : can_accept_connection maxConn m = true
    · have hlt : m.active_connections < (maxConn : Int) := by
        simpa [can_accept_connection] using h
      rw [if_pos h]
      refine ⟨?_, ?_⟩
      · show 0 ≤ m.active_connections + 1
        linarith [hm.1]
      · show m.active_connections + 1 ≤ (maxConn : Int)
        linarith
    · rw [if_neg h]
      exact hm
  | release =>
    simp only [admStep, remove_connection]
    refine ⟨le_max_left 0 _, ?_⟩
    have h1 : m.active_connections - 1 ≤ (maxConn : Int) := by linarith [hm.2]
    have h2 : (0 : Int) ≤ (maxConn : Int) := Int.natCast_nonneg maxConn
    exact max_le h2 h1

lemma admRun_bounds (maxConn : Nat) (ops : List AdmOp) (m : ConnMgr)
    (hm : 0 ≤ m.active_connections ∧ m.active_connections ≤ (maxConn : Int)) :
    0 ≤ (admRun maxConn m ops).active_connections ∧
      (admRun maxConn m ops).active_connections ≤ (maxConn : Int) := by
  induction ops generalizing m with
  | nil => exact hm
  | cons op ops ih =>
    exact ih (admStep maxConn m op) (admStep_bounds maxConn m hm op)

/-- C1: for every interleaving of atomic acquire (`can_accept_connection`
then `add_connection`) and release (`remove_connection`) events starting
from the freshly constructed manager, the active connection count stays
within `[0, MAX_CONCURRENT_CONNECTIONS]`. -/
theorem admission_count_bounded (maxConn : Nat) (ops : List AdmOp) :
    0 ≤ (admRun maxConn ConnMgr.init ops).active_connections ∧
      (admRun maxConn ConnMgr.init ops).active_connections ≤ (maxConn : Int) := by
  refine admRun_bounds maxConn ops ConnMgr.init ⟨le_refl 0, ?_⟩
  exact Int.natCast_nonneg maxConn

/-! ### The websocket handler's admission-slot discipline (main.py lines 395-569)

`websocket_interview` is a coroutine whose effectful steps can each fail;
what the claims observe is, for each combination of step outcomes, whether
`add_connection` was called and how many times `remove_connection` runs
before the handler returns (or an exception escapes it).  The handler's
text, in order:

* capacity check, `accept`, `add_connection`;
* `get_config_by_token(token)`, falling back to `get_config_by_token("default")`;
  both `None` -> `remove_connection`, close, return;
* `websocket.send_json(config_message)` — NOT inside any try/finally, so an
  exception here (e.g. the client already disconnected) escapes the handler;
* `create_session(...)` inside its own `try/except` (never propagates);
* `manager.get_cached_token()`; `None` -> `remove_connection`, close, return;
* `try: connect(...); relay_messages(...)` with `except WebSocketDisconnect`,
  `except Exception` and `finally: manager.remove_connection()`. -/

/-- How the `try:` block around connect/relay ends (line 515-566): normal
return of `relay_messages` (incl. its internal timeout), a
`WebSocketDisconnect`, or any other exception. -/
inductive RelayOutcome where
  | normal
  | clientDisconnect
  | exn
deriving Repr, DecidableEq

/-- Outcomes of the handler's effectful steps, fixed up front so the
handler itself is a pure function of them. -/
structure WsOutcomes where
  configFoundToken : Bool
  configFoundDefault : Bool
  sendConfigRaises : Bool
  createSessionRaises : Bool
  tokenAvailable : Bool
  relay : RelayOutcome
deriving Repr, DecidableEq

/-- What a run of the handler did to the admission slot. -/
structure WsTrace where
  addCalled : Bool
  releases : Nat
deriving Repr, DecidableEq

/-- `websocket_interview`, reduced to its admission-slot actions. -/
def websocket_interview (maxConn : Nat) (m : ConnMgr) (o : WsOutcomes) : WsTrace :=
  if ¬ can_accept_connection maxConn m then
    -- close(1008), return: the slot was never taken
    { addCalled := false, releases := 0 }
  else
    -- accept; add_connection
    if ¬ (o.configFoundToken || o.configFoundDefault) then
      -- remove_connection; close(1011 confignotfound); return
      { addCalled := true, releases := 1 }
    else if o.sendConfigRaises then
      -- exception escapes the handler: no enclosing try/finally yet
      { addCalled := true, releases := 0 }
    else
      -- create_session failure is caught and logged (lines 501-504)
      if ¬ o.tokenAvailable then
        -- remove_connection; close(1011 auth); return
        { addCalled := true, releases := 1 }
      else
        -- try: connect + relay ... finally: remove_connection (exactly once)
        match o.relay with
        | .normal => { addCalled := true, releases := 1 }
        | .clientDisconnect => { addCalled := true, releases := 1 }
        | .exn => { addCalled := true, releases := 1 }

/-- C2: the code violates the guaranteed-once release.  If the send of the
config-echo message raises (the client disconnected right after being
accepted), the handler exits with the slot acquired and never released:
`add_connection` was called, `remove_connection` ran zero times. -/
theorem websocket_leaks_slot_on_config_echo_failure :
    (websocket_interview 1000 ConnMgr.init
      { configFoundToken := true, configFoundDefault := true,
        sendConfigRaises := true, createSessionRaises := false,
        tokenAvailable := true, relay := .normal }).addCalled = true ∧
    (websocket_interview 1000 ConnMgr.init
      { configFoundToken := true, configFoundDefault := true,
        sendConfigRaises := true, createSessionRaises := false,
        tokenAvailable := true, relay := .normal }).releases = 0 :=
  ⟨rfl, rfl⟩

/-- On every path other than the uncovered config-echo send, the handler
releases exactly once whenever it acquired (supporting lemma; not itself a
claim). -/
lemma websocket_releases_once_when_send_succeeds (maxConn : Nat) (m : ConnMgr)
    (o : WsOutcomes) (hsend : o.sendConfigRaises = false)
    (hadd : (websocket_interview maxConn m o).addCalled = true) :
    (websocket_interview maxConn m o).releases = 1 := by
  unfold websocket_interview at *
  by_cases hc : can_accept_connection maxConn m = true
  · simp only [hc, not_true, if_neg, ite_false, Bool.not_eq_true] at *
    by_cases hcfg : (o.configFoundToken || o.configFoundDefault) = true
    · simp only [hcfg, not_true, ite_false, if_false] at *
      simp only [hsend, if_false, ite_false] at *
      by_cases htok : o.tokenAvailable = true
      · simp only [htok, not_true, ite_false] at *
        cases o.relay <;> simp
      · simp only [htok, Bool.not_eq_true] at *
        simp [htok] at *
    · simp only [Bool.not_eq_true] at hcfg
      simp [hcfg] at *
  · simp only [Bool.not_eq_true] at hc
    simp [hc] at hadd

/-! ### Credential cache (main.py lines 234-247, `get_cached_token`)

Python truthiness drives both the cache-hit test
(`if self.token_cache and self.token_expiry and now < self.token_expiry`)
and the store (`if token:`).  The wall clock is measured in minutes here,
matching `timedelta(minutes=50)`. -/

/-- Python truthiness of an optional string: `None` and `""` are falsy. -/
def truthyOptStr : Option String → Bool
  | none => false
  | some s => !(s == "")

/-- The token-cache slice of `ConnectionManager`'s state. -/
structure TokenCache where
  token_cache : Option String
  token_expiry : Option Int
deriving Repr, DecidableEq

/-- Tokens are cached for 50 of their 60 minutes of validity
(`timedelta(minutes=50)`, comment at main.py line 244). -/
def TOKEN_CACHE_MINUTES : Int := 50

/-- The cache-hit test: `self.token_cache and self.token_expiry and
now < self.token_expiry`. -/
def cacheFresh (st : TokenCache) (now : Int) : Bool :=
  truthyOptStr st.token_cache &&
    (match st.token_expiry with
     | none => false
     | some e => decide (now < e))

/-- `get_cached_token`: `fetch` is the outcome of `get_access_token()`
(`none` when it caught an error and returned `None`).  Returns the new
cache state and the value returned to the caller. -/
def get_cached_token (st : TokenCache) (now : Int) (fetch : Option String) :
    TokenCache × Option String :=
  if cacheFresh st now then (st, st.token_cache)
  else
    match fetch with
    | some t =>
      if t == "" then (st, some t)    -- `if token:` is false: nothing cached
      else ({ token_cache := some t,
              token_expiry := some (now + TOKEN_CACHE_MINUTES) }, some t)
    | none => (st, none)

/-- C8: (a) a fresh cached token is returned as-is, with no state change and
no dependence on the fetch outcome; (b) otherwise a successful fetch is
stored with expiry 50 minutes ahead and returned; (c) a failed fetch
returns `none` and leaves the cached token and expiry untouched. -/
theorem credential_cache_spec (st : TokenCache) (now : Int) (fetch : Option String) :
    (cacheFresh st now = true →
      get_cached_token st now fetch = (st, st.token_cache)) ∧
    (cacheFresh st now = false → ∀ t : String, fetch = some t → t ≠ "" →
      get_cached_token st now fetch =
        ({ token_cache := some t, token_expiry := some (now + TOKEN_CACHE_MINUTES) },
         some t)) ∧
    (cacheFresh st now = false → fetch = none →
      get_cached_token st now fetch = (st, none)) := by
  refine ⟨fun h => ?_, fun h t ht hne => ?_, fun h hn => ?_⟩
  · simp [get_cached_token, h]
  · subst ht
    simp [get_cached_token, h, hne]
  · subst hn
    simp [get_cached_token, h]

/-- Witness for C8: a still-fresh cached token survives a failed fetch and
is returned unchanged. -/
theorem credential_cache_spec_witness :
    get_cached_token { token_cache := some "tok", token_expiry := some 10 } 3 none =
      ({ token_cache := some "tok", token_expiry := some 10 }, some "tok") :=
  (credential_cache_spec { token_cache := some "tok", token_expiry := some 10 } 3 none).1
    (by decide)

/-! ### Session and latency tracking (database.py lines 316-376)

The `interview_sessions` collection is modelled as a list of documents with
a unique `sessionId` index (`init_database` line 46): `update_one` rewrites
the first matching document, `find_one` returns it.  `datetime` fields and
the fields no claim touches (`networkLogs`, `totalQuestions`,
`silenceWarnings`, `proctoringFlags`) are omitted.  Client-supplied times
are Python ints, hence `Int` (they may make `latencyMs` negative). -/

/-- One element of `latencyLogs` (`log_entry` in `log_latency`). -/
structure LatencyEntry where
  userEndTime : Int
  aiStartTime : Int
  latencyMs : Int
deriving Repr, DecidableEq

/-- An `interview_sessions` document. -/
structure Session where
  configToken : String
  sessionId : String
  latencyLogs : List LatencyEntry
  averageLatencyMs : Int
  maxLatencyMs : Int
  minLatencyMs : Int
deriving Repr, DecidableEq

/-- `update_one({"sessionId": sid}, ...)`: rewrite the first matching
document, or nothing when none matches (no `upsert`). -/
def updateFirst (db : List Session) (sid : String) (f : Session → Session) :
    List Session :=
  match db with
  | [] => []
  | s :: rest =>
    if s.sessionId == sid then f s :: rest else s :: updateFirst rest sid f

/-- `find_one({"sessionId": sid})`: the first matching document. -/
def findSession : List Session → String → Option Session
  | [], _ => none
  | s :: rest, sid =>
    if s.sessionId == sid then some s else findSession rest sid

/-- `create_session`: insert a fresh document with empty log and zero
aggregates; returns the new collection and the document. -/
def create_session (db : List Session) (config_token session_id : String) :
    List Session × Session :=
  let session : Session :=
    { configToken := config_token, sessionId := session_id,
      latencyLogs := [], averageLatencyMs := 0, maxLatencyMs := 0,
      minLatencyMs := 0 }
  (db ++ [session], session)

/-- Python `max` over a nonempty list (the `[]` case never arises in
`log_latency`, which guards with `if latencies:`). -/
def listMax : List Int → Int
  | [] => 0
  | h :: t => t.foldl max h

/-- Python `min` over a nonempty list. -/
def listMin : List Int → Int
  | [] => 0
  | h :: t => t.foldl min h

/-- `int(sum(latencies) / len(latencies))`: true division then `int()`,
which truncates toward zero; with the float arithmetic modelled exactly
this is truncating integer division, `Int.tdiv`. -/
def pyAvg (latencies : List Int) : Int :=
  Int.tdiv latencies.sum (latencies.length : Int)

/-- The `log_entry` document built by `log_latency` (timestamp omitted). -/
abbrev mkEntry (u a : Int) : LatencyEntry :=
  { userEndTime := u, aiStartTime := a, latencyMs := a - u }

/-- The `$push` update closure of `log_latency`. -/
def pushEntry (e : LatencyEntry) (s : Session) : Session :=
  { s with latencyLogs := s.latencyLogs ++ [e] }

/-- The `$set` update closure of `log_latency`: overwrite the three
aggregates with values recomputed over `lat`. -/
def setAggregates (lat : List Int) (s : Session) : Session :=
  { s with averageLatencyMs := pyAvg lat, maxLatencyMs := listMax lat,
           minLatencyMs := listMin lat }

/-- `log_latency`: compute `latency_ms = ai_start_time - user_end_time`,
`$push` the entry onto the matching session, then re-read the session and,
if it exists and its log is nonempty, `$set` average/max/min recomputed
over the entire log.  Returns the new collection and `latency_ms`. -/
def log_latency (db : List Session) (session_id : String)
    (user_end_time ai_start_time : Int) : List Session × Int :=
  let latency_ms := ai_start_time - user_end_time
  let log_entry : LatencyEntry :=
    { userEndTime := user_end_time, aiStartTime := ai_start_time,
      latencyMs := latency_ms }
  let db := updateFirst db session_id (pushEntry log_entry)
  let db :=
    match findSession db session_id with
    | none => db
    | some session =>
      let latencies := session.latencyLogs.map (fun l => l.latencyMs)
      if latencies.isEmpty then db
      else updateFirst db session_id (setAggregates latencies)
  (db, latency_ms)

lemma findSession_updateFirst (db : List Session) (sid : String)
    (f : Session → Session) (hf : ∀ s, (f s).sessionId = s.sessionId) :
    findSession (updateFirst db sid f) sid = (findSession db sid).map f := by
  induction db with
  | nil => rfl
  | cons s rest ih =>
    cases hm : (s.sessionId == sid) with
    | true =>
      simp only [updateFirst, findSession, hm, if_true, hf]
      rfl
    | false =>
      simp only [updateFirst, findSession, hm, Bool.false_eq_true, if_false, hf]
      exact ih

lemma updateFirst_no_match (db : List Session) (sid : String)
    (f : Session → Session) (h : findSession db sid = none) :
    updateFirst db sid f = db := by
  induction db with
  | nil => rfl
  | cons s rest ih =>
    cases hm : (s.sessionId == sid) with
    | true =>
      rw [findSession, hm] at h
      exact absurd h (by simp)
    | false =>
      rw [findSession, hm] at h
      simp only [Bool.false_eq_true, if_false] at h
      simp only [updateFirst, hm, Bool.false_eq_true, if_false]
      rw [ih h]

lemma log_latency_found (db : List Session) (sid : String) (u a : Int)
    (s0 : Session) (h : findSession db sid = some s0) :
    log_latency db sid u a =
      (updateFirst (updateFirst db sid (pushEntry (mkEntry u a))) sid
        (setAggregates (((pushEntry (mkEntry u a) s0).latencyLogs).map
          (fun l => l.latencyMs))), a - u) := by
  have hne : (((pushEntry (mkEntry u a) s0).latencyLogs).map
      (fun l => l.latencyMs)).isEmpty = false := by
    simp [pushEntry]
  simp only [log_latency]
  rw [findSession_updateFirst db sid (pushEntry (mkEntry u a)) (fun s => rfl), h]
  split
  · rename_i heq
    exact absurd heq (by simp)
  · rename_i session heq
    have hs : session = pushEntry (mkEntry u a) s0 := by
      simpa using heq.symm
    subst hs
    simp [hne]

/-- C3 (amended): after any insertion into an existing session, the stored
log gains exactly the new measurement and the three aggregates are exactly
recomputed over the whole log: `average` is the Python `int()` truncation
toward zero of the mean (`Int.tdiv`), `max`/`min` the true extrema; the
call returns `aiStartTime - userEndTime`.  Applied at every step of a
sequence of insertions this gives the claim with `floor` replaced by
truncation toward zero. -/
theorem log_latency_aggregates (db : List Session) (sid : String) (u a : Int)
    (s0 : Session) (h : findSession db sid = some s0) :
    ∃ s, findSession (log_latency db sid u a).1 sid = some s ∧
      s.latencyLogs = s0.latencyLogs ++
        [{ userEndTime := u, aiStartTime := a, latencyMs := a - u }] ∧
      s.averageLatencyMs = pyAvg (s.latencyLogs.map (fun l => l.latencyMs)) ∧
      s.maxLatencyMs = listMax (s.latencyLogs.map (fun l => l.latencyMs)) ∧
      s.minLatencyMs = listMin (s.latencyLogs.map (fun l => l.latencyMs)) ∧
      (log_latency db sid u a).2 = a - u := by
  rw [log_latency_found db sid u a s0 h]
  refine ⟨setAggregates (((pushEntry (mkEntry u a) s0).latencyLogs).map
      (fun l : LatencyEntry => l.latencyMs)) (pushEntry (mkEntry u a) s0),
    ?_, rfl, rfl, rfl, rfl, rfl⟩
  show findSession
      (updateFirst (updateFirst db sid (pushEntry (mkEntry u a))) sid
        (setAggregates (((pushEntry (mkEntry u a) s0).latencyLogs).map
          (fun l => l.latencyMs)))) sid = _
  rw [findSession_updateFirst _ sid
        (setAggregates (((pushEntry (mkEntry u a) s0).latencyLogs).map
          (fun l => l.latencyMs))) (fun s => rfl),
      findSession_updateFirst db sid (pushEntry (mkEntry u a)) (fun s => rfl), h]
  rfl

/-- Witness for C3's amended theorem: inserting `(1000, 1450)` into a fresh
session stores latency 450 with average, max and min all 450. -/
theorem log_latency_aggregates_witness :
    ∃ s, findSession
        (log_latency (create_session [] "default" "s1").1 "s1" 1000 1450).1 "s1"
        = some s ∧
      s.latencyLogs = [] ++
        [{ userEndTime := 1000, aiStartTime := 1450, latencyMs := 1450 - 1000 }] ∧
      s.averageLatencyMs = pyAvg (s.latencyLogs.map (fun l => l.latencyMs)) ∧
      s.maxLatencyMs = listMax (s.latencyLogs.map (fun l => l.latencyMs)) ∧
      s.minLatencyMs = listMin (s.latencyLogs.map (fun l => l.latencyMs)) ∧
      (log_latency (create_session [] "default" "s1").1 "s1" 1000 1450).2
        = 1450 - 1000 :=
  log_latency_aggregates (create_session [] "default" "s1").1 "s1" 1000 1450
    { configToken := "default", sessionId := "s1", latencyLogs := [],
      averageLatencyMs := 0, maxLatencyMs := 0, minLatencyMs := 0 }
    (by decide)

/-- C3 counterexample: with client clocks disagreeing, insert latencies
`-1` then `-2`: the stored average is `-1` (truncation toward zero of
`-3/2`), while the floor of the mean over the same stored log is `-2` —
the claim's `floor` equation fails on the code. -/
theorem latency_average_is_not_floor :
    (findSession
      (log_latency (log_latency (create_session [] "default" "s1").1
        "s1" 1 0).1 "s1" 2 0).1 "s1").map
          (fun s => s.averageLatencyMs) = some (-1) ∧
    (findSession
      (log_latency (log_latency (create_session [] "default" "s1").1
        "s1" 1 0).1 "s1" 2 0).1 "s1").map
          (fun s => Int.fdiv (s.latencyLogs.map (fun l => l.latencyMs)).sum
            ((s.latencyLogs.map (fun l => l.latencyMs)).length : Int))
        = some (-2) := by
  constructor <;> decide

/-- C10: logging latency against an unknown `sessionId` does not fail and
does not create or modify any session: the collection is returned
unchanged and the computed `aiStartTime - userEndTime` is still returned. -/
theorem log_latency_unknown_session (db : List Session) (sid : String)
    (u a : Int) (h : findSession db sid = none) :
    log_latency db sid u a = (db, a - u) := by
  unfold log_latency
  simp only
  rw [updateFirst_no_match db sid _ h, h]

/-- Witness for C10: an empty collection is untouched and the latency is
still computed. -/
theorem log_latency_unknown_session_witness :
    log_latency [] "nosuch" 1000 1450 = ([], 1450 - 1000) :=
  log_latency_unknown_session [] "nosuch" 1000 1450 (by decide)

/-! ### The upstream-to-downstream pump `server2client` (main.py lines 292-338)

The pump iterates over upstream messages; for each it runs `json.loads`,
inspects `sessionResumptionUpdate` (overwriting the nonlocal
`session_handle` when `update.get('resumable')` and `update.get('newHandle')`
are both truthy), logs `goAway` and the `serverContent` variants, and
forwards the verbatim message text with `send_text`.  The single
`try/except` wraps the whole `async for` loop, so an exception thrown by
`json.loads` is logged and ends the pump: that message and all later ones
are never forwarded. -/

/-- The `sessionResumptionUpdate` fields the pump reads. -/
structure ResUpdate where
  resumable : Bool
  newHandle : Option String
deriving Repr, DecidableEq

/-- An upstream message: either its payload fails `json.loads`, or it
parses and carries the two control fields the pump inspects (every other
field only drives debug logging) along with its verbatim text. -/
inductive UpMsg where
  | unparseable (raw : String)
  | parsed (raw : String) (resumption : Option ResUpdate) (goAway : Bool)
deriving Repr, DecidableEq

/-- The verbatim text of a message. -/
def UpMsg.rawOf : UpMsg → String
  | .unparseable raw => raw
  | .parsed raw _ _ => raw

/-- Whether `json.loads` succeeds on the message. -/
def UpMsg.isParsed : UpMsg → Bool
  | .unparseable _ => false
  | .parsed _ _ _ => true

/-- Python truthiness of `update.get('newHandle')`: absent or empty is
falsy. -/
def truthyHandle : Option String → Bool
  | none => false
  | some s => !(s == "")

/-- The pump's per-connection state: the nonlocal `session_handle` and the
messages sent to the client so far. -/
structure PumpState where
  session_handle : Option String
  forwarded : List String
deriving Repr, DecidableEq

/-- One iteration of the pump loop; `none` models the `json.loads`
exception escaping the body. -/
def processUpMsg (st : PumpState) : UpMsg → Option PumpState
  | .unparseable _ => none
  | .parsed raw resumption _goAway =>
    let st :=
      match resumption with
      | some u =>
        if u.resumable && truthyHandle u.newHandle then
          { st with session_handle := u.newHandle }
        else st
      | none => st
    some { st with forwarded := st.forwarded ++ [raw] }

/-- `server2client`: run the loop; the `except` around the loop turns the
first exception into termination of the pump. -/
def server2client (st : PumpState) : List UpMsg → PumpState
  | [] => st
  | m :: ms =>
    match processUpMsg st m with
    | none => st
    | some st' => server2client st' ms

/-- How one message transforms the stored handle: only a resumption update
marked resumable and carrying a (truthy) new handle overwrites it. -/
def handleStep (hdl : Option String) : UpMsg → Option String
  | .unparseable _ => hdl
  | .parsed _ resumption _ =>
    match resumption with
    | some u => if u.resumable && truthyHandle u.newHandle then u.newHandle else hdl
    | none => hdl

lemma server2client_cons (st : PumpState) (m : UpMsg) (ms : List UpMsg) :
    server2client st (m :: ms) =
      match processUpMsg st m with
      | none => st
      | some st' => server2client st' ms := rfl

lemma processUpMsg_parsed (st : PumpState) (raw : String)
    (resumption : Option ResUpdate) (goAway : Bool) :
    processUpMsg st (UpMsg.parsed raw resumption goAway) =
      some { session_handle :=
               handleStep st.session_handle (UpMsg.parsed raw resumption goAway),
             forwarded := st.forwarded ++ [raw] } := by
  cases resumption with
  | none => rfl
  | some u =>
    by_cases hc : (u.resumable && truthyHandle u.newHandle) = true
    · simp only [processUpMsg, handleStep, hc, if_true]
    · simp only [Bool.not_eq_true] at hc
      simp only [processUpMsg, handleStep, hc, Bool.false_eq_true, if_false]

lemma server2client_all_parsed (ms : List UpMsg) (st : PumpState)
    (h : ∀ m ∈ ms, m.isParsed = true) :
    server2client st ms =
      { session_handle := ms.foldl handleStep st.session_handle,
        forwarded := st.forwarded ++ ms.map UpMsg.rawOf } := by
  induction ms generalizing st with
  | nil => simp [server2client]
  | cons m ms ih =>
    cases m with
    | unparseable raw =>
      exact absurd (h _ (List.mem_cons_self _ _)) (by simp [UpMsg.isParsed])
    | parsed raw resumption goAway =>
      have hms : ∀ m ∈ ms, m.isParsed = true :=
        fun m hm => h m (List.mem_cons_of_mem _ hm)
      rw [server2client_cons, processUpMsg_parsed]
      show server2client
        { session_handle :=
            handleStep st.session_handle (UpMsg.parsed raw resumption goAway),
          forwarded := st.forwarded ++ [raw] } ms = _
      rw [ih _ hms]
      simp [UpMsg.rawOf]

/-- C5: over any run of the pump on messages that parse, the stored
resumption handle is exactly the fold of `handleStep`: only a message whose
`sessionResumptionUpdate` is resumable and carries a handle overwrites it,
every other message (goAway included) leaves it unchanged; and every
message is forwarded to the client verbatim, in order. -/
theorem resumption_handle_only_on_resumable (ms : List UpMsg) (st : PumpState)
    (h : ∀ m ∈ ms, m.isParsed = true) :
    (server2client st ms).session_handle = ms.foldl handleStep st.session_handle ∧
    (server2client st ms).forwarded = st.forwarded ++ ms.map UpMsg.rawOf := by
  rw [server2client_all_parsed ms st h]
  exact ⟨rfl, rfl⟩

/-- Witness for C5, the spec's scenario: a resumable update with handle
"abc" followed by a goAway notice: the stored handle becomes and stays
"abc" and both messages are forwarded verbatim. -/
theorem resumption_handle_only_on_resumable_witness :
    (server2client { session_handle := none, forwarded := [] }
      [UpMsg.parsed "r1" (some { resumable := true, newHandle := some "abc" }) false,
       UpMsg.parsed "r2" none true]).session_handle = some "abc" ∧
    (server2client { session_handle := none, forwarded := [] }
      [UpMsg.parsed "r1" (some { resumable := true, newHandle := some "abc" }) false,
       UpMsg.parsed "r2" none true]).forwarded = ["r1", "r2"] := by
  have h := resumption_handle_only_on_resumable
    [UpMsg.parsed "r1" (some { resumable := true, newHandle := some "abc" }) false,
     UpMsg.parsed "r2" none true]
    { session_handle := none, forwarded := [] } (by decide)
  exact ⟨h.1.trans (by decide), h.2.trans (by decide)⟩

/-- C4 counterexample: a message that fails to parse is not forwarded, and
the pump does not continue: a well-formed message arriving after it is not
relayed either. -/
theorem unparseable_message_dropped :
    server2client { session_handle := none, forwarded := [] }
      [UpMsg.unparseable "BAD", UpMsg.parsed "GOOD" none false]
      = { session_handle := none, forwarded := [] } := by
  decide

lemma server2client_stops_at_unparseable (raw : String) (post : List UpMsg) :
    ∀ (pre : List UpMsg) (st : PumpState), (∀ m ∈ pre, m.isParsed = true) →
      server2client st (pre ++ UpMsg.unparseable raw :: post) =
        server2client st pre := by
  intro pre
  induction pre with
  | nil =>
    intro st _
    simp [server2client, processUpMsg]
  | cons m ms ih =>
    intro st hpre
    cases m with
    | unparseable r =>
      exact absurd (hpre _ (List.mem_cons_self _ _)) (by simp [UpMsg.isParsed])
    | parsed r resumption goAway =>
      rw [List.cons_append, server2client_cons, server2client_cons,
          processUpMsg_parsed]
      exact ih _ (fun x hx => hpre x (List.mem_cons_of_mem _ hx))

/-- C4 (amended): the first unparseable message ends the pump: the run
equals the run on the parsed prefix alone (so the failing message and
everything after it are dropped), while the prefix was forwarded verbatim. -/
theorem parse_failure_halts_pump (st : PumpState) (pre : List UpMsg)
    (raw : String) (post : List UpMsg)
    (hpre : ∀ m ∈ pre, m.isParsed = true) :
    server2client st (pre ++ UpMsg.unparseable raw :: post) =
      server2client st pre ∧
    (server2client st pre).forwarded = st.forwarded ++ pre.map UpMsg.rawOf := by
  constructor
  · exact server2client_stops_at_unparseable raw post pre st hpre
  · rw [server2client_all_parsed pre st hpre]

/-- Witness for C4's amended theorem: with messages A, BAD, C the pump
forwards exactly A. -/
theorem parse_failure_halts_pump_witness :
    server2client { session_handle := none, forwarded := [] }
      ([UpMsg.parsed "A" none false] ++
        UpMsg.unparseable "BAD" :: [UpMsg.parsed "C" none false]) =
      server2client { session_handle := none, forwarded := [] }
        [UpMsg.parsed "A" none false] ∧
    (server2client { session_handle := none, forwarded := [] }
      [UpMsg.parsed "A" none false]).forwarded =
      [] ++ [UpMsg.parsed "A" none false].map UpMsg.rawOf :=
  parse_failure_halts_pump { session_handle := none, forwarded := [] }
    [UpMsg.parsed "A" none false] "BAD" [UpMsg.parsed "C" none false]
    (by decide)

/-! ### The instruction builder (main.py lines 452-461 and 572-681)

`generate_dynamic_prompt` is a pure function of the configuration, the AI
settings and the proctoring sub-document.  Dict lookups with defaults
(`config.get(key, default)`) are modelled by `Option` fields read with
`getD`; a key holding Python `None` is not distinguished from a missing
key (for the fields below the two are only distinguishable when a stored
`None` would be interpolated as the literal text "None", which no
configuration produced by this system does).  The multi-line Python string
literals are transcribed verbatim, `\n`-joined. -/

/-- `config` fields read by the handler's prompt construction. -/
structure Config where
  companyName : Option String
  jobRole : Option String
  candidateName : Option String
  language : Option String
  country : Option String
  industryType : Option String
  yearsOfExperience : Option String
  durationMinutes : Option Nat
  systemPrompt : Option String
deriving Repr, DecidableEq

/-- `ai_settings` fields read by `generate_dynamic_prompt` (the voice and
turn-detection fields are read elsewhere in the handler and never reach
the prompt text). -/
structure AiSettings where
  silenceWarning1Seconds : Option Nat
  silenceWarning2Seconds : Option Nat
  silenceEndSeconds : Option Nat
  maxQuestions : Option Nat
deriving Repr, DecidableEq

/-- The `proctoring` sub-document; every flag defaults to `True` when the
key is absent. -/
structure Proctoring where
  enabled : Option Bool
  detectMultiplePeople : Option Bool
  detectPhone : Option Bool
  detectLookingAway : Option Bool
  detectTabSwitch : Option Bool
deriving Repr, DecidableEq

/-- The `casual-hindi` language header block (main.py lines 591-605). -/
def hindi_lang_instruction : String :=
  "# ⚠️ CRITICAL MANDATORY LANGUAGE RULE — YOU MUST FOLLOW THIS:\n" ++
  "YOU MUST SPEAK ONLY IN CASUAL HINDI (Hinglish). DO NOT SPEAK IN ENGLISH.\n" ++
  "This is the #1 most important rule. Every single sentence you say MUST be in Hindi/Hinglish.\n" ++
  "\n" ++
  "## Hindi Language Rules:\n" ++
  "- ALWAYS speak in casual, everyday Hindi (Hinglish) — NOT formal/shudh Hindi\n" ++
  "- DO NOT use English for sentences. Only use English for technical terms like 'array', 'database', 'API', 'system design', etc.\n" ++
  "- Your greeting MUST be in Hindi, e.g., \"Namaste! Main aapka interview lunga aaj.\"\n" ++
  "- Example questions: \"Acha, toh mujhe batao ki tumne apne last project mein kya kya kiya?\"\n" ++
  "- Example follow-up: \"Hmm interesting, toh usme kaunsa tech stack use kiya tha?\"\n" ++
  "- Be natural and friendly, jaise ek colleague se baat kar rahe ho chai pe\n" ++
  "- Even if the candidate replies in English, YOU MUST continue speaking in Hindi/Hinglish\n" ++
  "- NEVER switch to English. ALWAYS stay in Hindi/Hinglish no matter what.\n" ++
  "\n" ++
  "REMEMBER: SPEAK IN HINDI. NOT ENGLISH. THIS IS NON-NEGOTIABLE."

/-- The default (`indian-english`) language header block (lines 607-610). -/
def english_lang_instruction : String :=
  "# 🗣️ LANGUAGE: INDIAN ENGLISH\n" ++
  "- Speak in clear, professional Indian English\n" ++
  "- Use natural Indian expressions and phrasing\n" ++
  "- Be professional but warm and approachable"

/-- `if language == "casual-hindi": ... else: ...` (lines 590-610). -/
def lang_instruction_of (language : String) : String :=
  if language == "casual-hindi" then hindi_lang_instruction
  else english_lang_instruction

/-- The experience ladder (lines 613-623); an unmatched value leaves the
fragment empty. -/
def exp_instruction_of (experience : String) : String :=
  if experience == "0-1" then
    "Ask beginner-friendly questions. Focus on fundamentals, basic concepts, and willingness to learn."
  else if experience == "1-3" then
    "Ask intermediate questions. Focus on practical experience, problem-solving, and coding skills."
  else if experience == "3-5" then
    "Ask mid-level questions. Include system design basics, architecture decisions, and leadership potential."
  else if experience == "5-10" then
    "Ask senior-level questions. Focus on system design, architecture, mentoring, and strategic thinking."
  else if experience == "10+" then
    "Ask principal/lead-level questions. Focus on large-scale system design, organizational impact, and technical vision."
  else ""

/-- Detector rule 1 (line 630). -/
def rule_multiple_people : String :=
  "1. **Multiple People Detected**: If you see more than ONE person in the frame, warn in the interview language: \"I notice there might be someone else in the room. Please ensure you are alone.\""

/-- Detector rule 2 (line 632). -/
def rule_phone : String :=
  "2. **Mobile Phone Usage**: If you see a phone, warn in the interview language: \"Please keep your phone away during the interview.\""

/-- Detector rule 3 (line 634). -/
def rule_looking_away : String :=
  "3. **Looking Away**: If candidate frequently looks away, warn in the interview language: \"Please focus on the interview and maintain eye contact.\""

/-- Detector rule 4 (line 636). -/
def rule_tab_switch : String :=
  "4. **Tab Switching**: If distracted, warn in the interview language: \"Please give your full attention to the interview.\""

/-- `proctoring_rules` (lines 626-637): when enabled, the `\n`-join of the
rules whose flags are on; otherwise the empty string. -/
def proctoring_rules_of (proctoring : Proctoring) : String :=
  if proctoring.enabled.getD true then
    String.intercalate "\n"
      ((if proctoring.detectMultiplePeople.getD true then [rule_multiple_people] else []) ++
       (if proctoring.detectPhone.getD true then [rule_phone] else []) ++
       (if proctoring.detectLookingAway.getD true then [rule_looking_away] else []) ++
       (if proctoring.detectTabSwitch.getD true then [rule_tab_switch] else []))
  else ""

/-- The fixed sentence emitted when `proctoring_rules` is empty (line 652). -/
def proctoringDisabledSentence : String :=
  "Proctoring is disabled for this interview."

/-- The f-string up to (and including) the proctoring heading: everything
before the `{proctoring_rules if ...}` slot. -/
def promptHead (config : Config) : String :=
  let company_name := config.companyName.getD "the company"
  let job_role := config.jobRole.getD "Software Engineer"
  let candidate_name := config.candidateName.getD ""
  let language := config.language.getD "indian-english"
  let country := config.country.getD "India"
  let industry := config.industryType.getD "Information Technology"
  let experience := config.yearsOfExperience.getD "1-3"
  lang_instruction_of language ++
  "\n\nYou are conducting a real-time technical interview for " ++ company_name ++
  " for the position of " ++ job_role ++ ".\n" ++
  "Industry: " ++ industry ++ " | Country: " ++ country ++
  " | Expected Experience: " ++ experience ++ " years\n" ++
  "\nYou can hear and also see the candidate through audio and video.\n" ++
  (if candidate_name == "" then ""
   else "The candidate's name is " ++ candidate_name ++ ".") ++
  "\n\n# 🎯 EXPERIENCE-BASED DIFFICULTY:\n" ++
  exp_instruction_of experience ++
  "\n\n# 🔴 PROCTORING & MONITORING:\n"

/-- The f-string after the proctoring slot, to the end. -/
def promptTail (config : Config) (ai_settings : AiSettings) : String :=
  let duration_minutes := config.durationMinutes.getD 30
  let silence_warning2 := ai_settings.silenceWarning2Seconds.getD 50
  let max_questions := ai_settings.maxQuestions.getD 10
  "\n\n# ⏱️ SILENT USER DETECTION:\n" ++
  "The system will send you messages about candidate silence. Respond appropriately:\n" ++
  "- If you receive \"[SYSTEM] I am waiting for your response\": \n" ++
  "  Say: \"I am waiting for your response.\"\n" ++
  "- If you receive \"[SYSTEM] Candidate silent for " ++ toString silence_warning2 ++
  " seconds - FINAL WARNING\":\n" ++
  "  Say firmly: \"If you do not respond, we will end the interview shortly.\"\n" ++
  "- If you receive \"[SYSTEM] Ending interview due to no response\":\n" ++
  "  Say: \"Since there has been no response, we are ending this interview session now.\"\n" ++
  "- If you receive \"[SYSTEM] Interview time limit (" ++ toString duration_minutes ++
  " minutes) reached\":\n" ++
  "  Say: \"We have reached the " ++ toString duration_minutes ++
  "-minute time limit. The interview is now complete.\"\n" ++
  "\n# 🔄 IMPORTANT:\n" ++
  "If the candidate speaks after any warning, IMMEDIATELY continue the interview normally.\n" ++
  "\n# Interview Structure:\n" ++
  "1. Greet the candidate appropriately\n" ++
  "2. Ask candidate to introduce themselves\n" ++
  "3. Ask up to " ++ toString max_questions ++
  " questions appropriate for their experience level\n" ++
  "4. Close the interview professionally\n" ++
  "\n# Communication Rules:\n" ++
  "- Be professional but friendly\n" ++
  "- Listen carefully and ask follow-up questions\n" ++
  "- Keep responses concise\n" ++
  "- Encourage good answers\n" ++
  "- Use natural, conversational language\n"

/-- `generate_dynamic_prompt` (lines 572-681): header and business context,
then the proctoring slot (`proctoring_rules` when non-empty, else the fixed
disabled sentence), then the silence/closing sections. -/
def generate_dynamic_prompt (config : Config) (ai_settings : AiSettings)
    (proctoring : Proctoring) : String :=
  promptHead config ++
  (if proctoring_rules_of proctoring == "" then proctoringDisabledSentence
   else proctoring_rules_of proctoring) ++
  promptTail config ai_settings

/-- Lines 452-461 of the handler: a truthy `config.get("systemPrompt")` is
used verbatim, otherwise the dynamic prompt is generated. -/
def build_system_prompt (config : Config) (ai_settings : AiSettings)
    (proctoring : Proctoring) : String :=
  match config.systemPrompt with
  | some custom_prompt =>
    if custom_prompt == "" then generate_dynamic_prompt config ai_settings proctoring
    else custom_prompt
  | none => generate_dynamic_prompt config ai_settings proctoring

/-- C6: a non-empty `systemPrompt` override is returned exactly, verbatim,
whatever every other configuration field holds; no other assembly rule
contributes. -/
theorem system_prompt_override_verbatim (config : Config)
    (ai_settings : AiSettings) (proctoring : Proctoring) (X : String)
    (hX : config.systemPrompt = some X) (hne : X ≠ "") :
    build_system_prompt config ai_settings proctoring = X := by
  rw [build_system_prompt, hX]
  simp [hne]

/-- Witness for C6 at a concrete configuration. -/
theorem system_prompt_override_verbatim_witness :
    build_system_prompt
      { companyName := some "Demo Company", jobRole := some "Software Engineer",
        candidateName := none, language := some "casual-hindi",
        country := some "India", industryType := some "Information Technology",
        yearsOfExperience := some "10+", durationMinutes := some 30,
        systemPrompt := some "X" }
      { silenceWarning1Seconds := some 35, silenceWarning2Seconds := some 50,
        silenceEndSeconds := some 60, maxQuestions := some 10 }
      { enabled := some true, detectMultiplePeople := some true,
        detectPhone := some true, detectLookingAway := some true,
        detectTabSwitch := some true } = "X" :=
  system_prompt_override_verbatim _ _ _ "X" rfl (by decide)

/-- Substring containment, as decomposition into a prefix and a suffix. -/
def containsSubstr (s t : String) : Prop := ∃ a b, s = a ++ t ++ b

lemma mem_of_containsSubstr {s t : String} {c : Char}
    (h : containsSubstr s t) (hc : c ∈ t.data) : c ∈ s.data := by
  obtain ⟨a, b, rfl⟩ := h
  simp only [String.data_append, List.mem_append]
  exact Or.inl (Or.inr hc)

lemma not_containsSubstr_of_char {s t : String} (c : Char)
    (hc : c ∈ t.data) (hs : c ∉ s.data) : ¬ containsSubstr s t :=
  fun h => hs (mem_of_containsSubstr h hc)

/-- The seeded default configuration (database.py lines 121-186) with the
vernacular language variant selected and proctoring disabled — the C7
scenario. -/
def c7_config : Config :=
  { companyName := some "Demo Company", jobRole := some "Software Engineer",
    candidateName := none, language := some "casual-hindi",
    country := some "India", industryType := some "Information Technology",
    yearsOfExperience := some "1-3", durationMinutes := some 30,
    systemPrompt := none }

/-- The seeded default AI settings (database.py lines 88-116), prompt-relevant
fields. -/
def default_ai_settings : AiSettings :=
  { silenceWarning1Seconds := some 35, silenceWarning2Seconds := some 50,
    silenceEndSeconds := some 60, maxQuestions := some 10 }

/-- Proctoring disabled (the detector flags keep their seeded values). -/
def c7_proctoring : Proctoring :=
  { enabled := some false, detectMultiplePeople := some true,
    detectPhone := some true, detectLookingAway := some true,
    detectTabSwitch := some true }

set_option maxRecDepth 100000 in
/-- C7: with the casual/regional vernacular language variant (source
literal `casual-hindi`), proctoring disabled and no override, the built
instruction starts with the vernacular header block, contains the fixed
proctoring-disabled sentence, and contains none of the four
detector-specific warning rules. -/
theorem vernacular_disabled_proctoring_scenario :
    (List.isPrefixOf hindi_lang_instruction.data
      (build_system_prompt c7_config default_ai_settings c7_proctoring).data
      = true) ∧
    containsSubstr (build_system_prompt c7_config default_ai_settings c7_proctoring)
      proctoringDisabledSentence ∧
    ¬ containsSubstr (build_system_prompt c7_config default_ai_settings c7_proctoring)
      rule_multiple_people ∧
    ¬ containsSubstr (build_system_prompt c7_config default_ai_settings c7_proctoring)
      rule_phone ∧
    ¬ containsSubstr (build_system_prompt c7_config default_ai_settings c7_proctoring)
      rule_looking_away ∧
    ¬ containsSubstr (build_system_prompt c7_config default_ai_settings c7_proctoring)
      rule_tab_switch := by
  have hb : build_system_prompt c7_config default_ai_settings c7_proctoring =
      promptHead c7_config ++ proctoringDisabledSentence ++
        promptTail c7_config default_ai_settings := rfl
  have hs : Char.ofNat 42 ∉
      (build_system_prompt c7_config default_ai_settings c7_proctoring).data := by
    decide
  refine ⟨by decide, ⟨promptHead c7_config,
    promptTail c7_config default_ai_settings, hb⟩, ?_, ?_, ?_, ?_⟩
  · exact not_containsSubstr_of_char (Char.ofNat 42) (by decide) hs
  · exact not_containsSubstr_of_char (Char.ofNat 42) (by decide) hs
  · exact not_containsSubstr_of_char (Char.ofNat 42) (by decide) hs
  · exact not_containsSubstr_of_char (Char.ofNat 42) (by decide) hs

/-- C9: proctoring enabled with all four detector flags off produces
exactly the same instruction as proctoring disabled — both render the
fixed disabled sentence in the proctoring slot (the rule list is empty, so
the f-string's falsy-branch text is used either way). -/
theorem proctoring_flags_off_same_as_disabled (cfg : Config) (ai : AiSettings)
    (p1 p2 : Proctoring)
    (h1 : p1.enabled.getD true = false)
    (h2 : p2.enabled.getD true = true)
    (h2a : p2.detectMultiplePeople.getD true = false)
    (h2b : p2.detectPhone.getD true = false)
    (h2c : p2.detectLookingAway.getD true = false)
    (h2d : p2.detectTabSwitch.getD true = false) :
    generate_dynamic_prompt cfg ai p1 = generate_dynamic_prompt cfg ai p2 ∧
    containsSubstr (generate_dynamic_prompt cfg ai p2)
      proctoringDisabledSentence := by
  have e1 : proctoring_rules_of p1 = "" := by
    simp [proctoring_rules_of, h1]
  have e2 : proctoring_rules_of p2 = "" := by
    simp only [proctoring_rules_of, h2, h2a, h2b, h2c, h2d, if_true,
      Bool.false_eq_true, if_false, List.append_nil]
    rfl
  constructor
  · simp [generate_dynamic_prompt, e1, e2]
  · exact ⟨promptHead cfg, promptTail cfg ai,
      by simp [generate_dynamic_prompt, e2]⟩

/-- Witness for C9: with the seeded default configuration, disabling
proctoring and enabling it with every detector off give byte-identical
instructions containing the disabled sentence. -/
theorem proctoring_flags_off_same_as_disabled_witness :
    generate_dynamic_prompt
      { companyName := some "Demo Company", jobRole := some "Software Engineer",
        candidateName := none, language := some "indian-english",
        country := some "India", industryType := some "Information Technology",
        yearsOfExperience := some "1-3", durationMinutes := some 30,
        systemPrompt := none }
      default_ai_settings
      { enabled := some false, detectMultiplePeople := some true,
        detectPhone := some true, detectLookingAway := some true,
        detectTabSwitch := some true } =
    generate_dynamic_prompt
      { companyName := some "Demo Company", jobRole := some "Software Engineer",
        candidateName := none, language := some "indian-english",
        country := some "India", industryType := some "Information Technology",
        yearsOfExperience := some "1-3", durationMinutes := some 30,
        systemPrompt := none }
      default_ai_settings
      { enabled := some true, detectMultiplePeople := some false,
        detectPhone := some false, detectLookingAway := some false,
        detectTabSwitch := some false } ∧
    containsSubstr
      (generate_dynamic_prompt
        { companyName := some "Demo Company", jobRole := some "Software Engineer",
          candidateName := none, language := some "indian-english",
          country := some "India", industryType := some "Information Technology",
          yearsOfExperience := some "1-3", durationMinutes := some 30,
          systemPrompt := none }
        default_ai_settings
        { enabled := some true, detectMultiplePeople := some false,
          detectPhone := some false, detectLookingAway := some false,
          detectTabSwitch := some false })
      proctoringDisabledSentence :=
  proctoring_flags_off_same_as_disabled _ _ _ _
    (by decide) (by decide) (by decide) (by decide) (by decide) (by decide)

end InterviewBot
